import Mathlib

/-!
Shallow embedding of src/extractor_oiv_public.py.

The script loads a PDF into text, iterates a fixed registry of seven
extraction tasks, invokes a language model chain per task (parsing the
response against the FilaEmpresa pydantic schema), degrades a failed task
to an empty four-column DataFrame, sleeps one second after every task,
and finally writes one sheet per task to an Excel file.

External collaborators (PDF loader, the model chain, the Excel writer)
are modelled as an environment of oracles: each can succeed with a value
or fail with a (string) error, standing for a raised Python exception.
-/

namespace ExtractorOIV

/-- JSON-like values appearing in a model response, used to state schema
validation of candidate records. -/
inductive JsonVal where
  | null
  | str (s : String)
  | num (n : Int)
  | boolean (b : Bool)
deriving Repr, DecidableEq

/-- A candidate record of a model response: a JSON object as a key-value list. -/
abbrev JsonRecord := List (String × JsonVal)

/-- Embedding of the pydantic model FilaEmpresa (source lines 21-25):
numero is Optional[str], the other three fields are required str. -/
structure FilaEmpresa where
  numero : Option String
  razon_social : String
  rut : String
  domicilio : String
deriving Repr, DecidableEq

/-- Embedding of the pydantic model SeccionIndividual (source lines 28-29). -/
structure SeccionIndividual where
  items : List FilaEmpresa
deriving Repr, DecidableEq

/-- First value bound to a key in a JSON object, if present. -/
def getField (r : JsonRecord) (k : String) : Option JsonVal :=
  (r.find? (fun p => p.1 == k)).map (fun p => p.2)

/-- Validation of a required str field: present with a string value, else a
schema validation error (missing field or wrong type). -/
def parseRequiredStr (r : JsonRecord) (k : String) : Except String String :=
  match getField r k with
  | some (JsonVal.str s) => Except.ok s
  | some _ => Except.error ("wrong type for field " ++ k)
  | none => Except.error ("field required: " ++ k)

/-- Validation of an Optional[str] field: absent or null yields none, a
string value is accepted, any other type is a schema validation error. -/
def parseOptionalStr (r : JsonRecord) (k : String) : Except String (Option String) :=
  match getField r k with
  | none => Except.ok none
  | some JsonVal.null => Except.ok none
  | some (JsonVal.str s) => Except.ok (some s)
  | some _ => Except.error ("wrong type for field " ++ k)

/-- Schema validation of one candidate record against FilaEmpresa, as the
declared field types prescribe: numero Optional[str]; razon_social, rut and
domicilio required str.  No coercion of values and no inference of missing
required fields. -/
def FilaEmpresa.validate (r : JsonRecord) : Except String FilaEmpresa := do
  let n ← parseOptionalStr r "numero"
  let rz ← parseRequiredStr r "razon_social"
  let rt ← parseRequiredStr r "rut"
  let d ← parseRequiredStr r "domicilio"
  pure { numero := n, razon_social := rz, rut := rt, domicilio := d }

/-- One entry of the section task registry (an id and a natural-language
section label). -/
structure ExtractionTask where
  id : String
  descripcion : String
deriving Repr, DecidableEq

/-- Embedding of TAREAS_EXTRACCION (source lines 33-62), in source order. -/
def TAREAS_EXTRACCION : List ExtractionTask :=
  [ { id := "I_Sector_Electrico",
      descripcion := "I. Instituciones que proveen servicios de generación, transmisión o distribución eléctrica y el Coordinador Eléctrico Nacional" },
    { id := "II_Telecomunicaciones",
      descripcion := "II. Instituciones que prestan servicios de telecomunicaciones" },
    { id := "III_Digital",
      descripcion := "III. Instituciones que realizan actividades de infraestructura digital, servicios digitales y servicios de tecnología de la información" },
    { id := "IV_Financiero",
      descripcion := "IV. Instituciones que realizan actividades de banca, servicios financieros y medios de pago" },
    { id := "V_Salud",
      descripcion := "V. Instituciones que realizan servicios de prestación institucional de salud" },
    { id := "VI_EmpresasEstado",
      descripcion := "VI. Empresas del Estado y del sector estatal" },
    { id := "VII_OrganismosEstado",
      descripcion := "VII. Organismos de la Administración del Estado" } ]

/-- A pandas DataFrame, reduced to what the script uses: an ordered column
list and rows of cells (a cell is none for NaN / a missing value). -/
structure DataFrame where
  columns : List String
  rows : List (List (Option String))
deriving Repr, DecidableEq

/-- item.dict() for a FilaEmpresa: keys in field declaration order
(source line 128). -/
def FilaEmpresa.toDict (f : FilaEmpresa) : List (String × Option String) :=
  [("numero", f.numero), ("razon_social", some f.razon_social),
   ("rut", some f.rut), ("domicilio", some f.domicilio)]

/-- Column index a pandas DataFrame derives from a list of dicts: keys in
order of first appearance; no dicts means no columns at all. -/
def dictCols (ds : List (List (String × Option String))) : List String :=
  ds.foldl (fun acc d => acc ++ ((d.map (fun p => p.1)).filter (fun k => !(acc.contains k)))) []

/-- The cell a dict contributes to a column: its value there, or NaN (none)
when the key is absent. -/
def dictCell (d : List (String × Option String)) (c : String) : Option String :=
  match d.find? (fun p => p.1 == c) with
  | some p => p.2
  | none => none

/-- pd.DataFrame(data) for data a list of dicts (source line 129). -/
def DataFrame.ofDicts (ds : List (List (String × Option String))) : DataFrame :=
  { columns := dictCols ds, rows := ds.map (fun d => (dictCols ds).map (dictCell d)) }

/-- pd.DataFrame(columns=["numero", "razon_social", "rut", "domicilio"])
built on the per-task failure branch (source line 137). -/
def fallbackDF : DataFrame :=
  { columns := ["numero", "razon_social", "rut", "domicilio"], rows := [] }

/-- Environment of external collaborators: the PDF loader result (the page
texts, or a load error), the per-task result of the chain
prompt | llm | parser keyed by task id (a parsed SeccionIndividual, or any
error raised while building the prompt input, invoking the model or
parsing/validating its response), and the Excel write outcome. -/
structure Env where
  loadResult : Except String (List String)
  invokeResult : String → Except String SeccionIndividual
  writeResult : Except String Unit

/-- Observable events of a run: a chain invocation for a task, the
inter-task time.sleep, and entry into the Excel-writing block. -/
inductive Event where
  | invokeModel (taskId : String)
  | sleep (seconds : Nat)
  | writeAttempt
deriving Repr, DecidableEq

/-- One sheet of the output workbook as df.to_excel(index=False) lays it
out: header cells (one per DataFrame column; none when the DataFrame has no
columns) and one row of cells per DataFrame row. -/
structure Sheet where
  name : String
  headerCells : List String
  dataRows : List (List (Option String))
deriving Repr, DecidableEq

/-- Result of a run of procesar_documento: the event trace, the output
workbook if one was produced, and the exception escaping the function if
any did. -/
structure RunOutcome where
  events : List Event
  output : Option (List Sheet)
  raised : Option String
deriving Repr, DecidableEq

/-- The body of one loop iteration (source lines 119-137): on a successful
chain invocation the items become a DataFrame; on any exception the empty
four-column fallback DataFrame is used instead. -/
def processTarea (env : Env) (t : ExtractionTask) : DataFrame :=
  match env.invokeResult t.id with
  | Except.ok resultado => DataFrame.ofDicts (resultado.items.map FilaEmpresa.toDict)
  | Except.error _ => fallbackDF

/-- df.to_excel(writer, sheet_name=sheet_name, index=False) for one entry of
resultados_dfs (source line 147). -/
def sheetOfDF (name : String) (df : DataFrame) : Sheet :=
  { name := name, headerCells := df.columns, dataRows := df.rows }

/-- Embedding of procesar_documento (source lines 65-152).  A load failure
is caught and the function returns at once (lines 73-75).  Otherwise every
task of TAREAS_EXTRACCION is processed in registry order, each iteration
ending with time.sleep(1) on both branches (line 140); resultados_dfs keeps
dict insertion order, one entry per task id.  The final Excel write is
attempted inside try/except: on success the workbook holds one sheet per
task in insertion order, and on failure the exception is caught and logged
(lines 151-152), so nothing ever propagates out of the function. -/
def procesar_documento (env : Env) : RunOutcome :=
  match env.loadResult with
  | Except.error _ => { events := [], output := none, raised := none }
  | Except.ok pages =>
      let _full_text := String.intercalate "\n" pages
      let dfs := TAREAS_EXTRACCION.map (fun t => (t.id, processTarea env t))
      let events :=
        (TAREAS_EXTRACCION.flatMap (fun t => [Event.invokeModel t.id, Event.sleep 1]))
          ++ [Event.writeAttempt]
      match env.writeResult with
      | Except.ok _ =>
          { events := events,
            output := some (dfs.map (fun p => sheetOfDF p.1 p.2)),
            raised := none }
      | Except.error _ => { events := events, output := none, raised := none }

/-- Lookup of the sheet bearing a given name in the output workbook. -/
def sheetFor (sheets : List Sheet) (id : String) : Option Sheet :=
  sheets.find? (fun s => s.name == id)

/-- The row of cells a FilaEmpresa contributes, in field declaration order. -/
def filaRow (f : FilaEmpresa) : List (Option String) :=
  [f.numero, some f.razon_social, some f.rut, some f.domicilio]

/-- The process environment before the script runs, as a key-value list. -/
abbrev EnvVars := List (String × String)

/-- Lookup of a process environment variable. -/
def lookupVar (vars : EnvVars) (k : String) : Option String :=
  (vars.find? (fun p => p.1 == k)).map (fun p => p.2)

/-- The process environment after the configuration line
os.environ["GOOGLE_API_KEY"] = "Poner GOOGLE_API_KEY" (source line 15) has
run over the externally supplied variables. -/
def configuredVars (vars : EnvVars) : String → Option String :=
  fun k => if k == "GOOGLE_API_KEY" then some "Poner GOOGLE_API_KEY" else lookupVar vars k

/-- The credential the ChatGoogleGenerativeAI client (source lines 78-82)
reads from GOOGLE_API_KEY at invocation time, given the externally supplied
process environment. -/
def credentialUsedByClient (vars : EnvVars) : Option String :=
  configuredVars vars "GOOGLE_API_KEY"

/-! ## Helper lemmas -/

/-- The expected column header set of a section sheet. -/
def expectedColumns : List String := ["numero", "razon_social", "rut", "domicilio"]

lemma foldl_cols_stable (l : List FilaEmpresa) (acc : List String)
    (h1 : "numero" ∈ acc) (h2 : "razon_social" ∈ acc)
    (h3 : "rut" ∈ acc) (h4 : "domicilio" ∈ acc) :
    (l.map FilaEmpresa.toDict).foldl
      (fun acc d => acc ++ ((d.map (fun p => p.1)).filter (fun k => !(acc.contains k)))) acc
      = acc := by
  induction l generalizing acc with
  | nil => rfl
  | cons f rest ih =>
      rw [List.map_cons, List.foldl_cons]
      have hstep :
          acc ++ (((FilaEmpresa.toDict f).map (fun p => p.1)).filter
            (fun k => !(acc.contains k))) = acc := by
        simp [FilaEmpresa.toDict, List.filter_cons, h1, h2, h3, h4]
      rw [hstep]
      exact ih acc h1 h2 h3 h4

lemma dictCols_toDicts_cons (f : FilaEmpresa) (l : List FilaEmpresa) :
    dictCols ((f :: l).map FilaEmpresa.toDict) = expectedColumns := by
  unfold dictCols
  rw [List.map_cons, List.foldl_cons]
  have hstep :
      ([] : List String) ++ (((FilaEmpresa.toDict f).map (fun p => p.1)).filter
        (fun k => !(([] : List String).contains k))) = expectedColumns := rfl
  rw [hstep]
  exact foldl_cols_stable l expectedColumns (by decide) (by decide) (by decide) (by decide)

lemma ofDicts_toDicts_nil : DataFrame.ofDicts (([] : List FilaEmpresa).map FilaEmpresa.toDict)
    = { columns := [], rows := [] } := rfl

lemma ofDicts_toDicts_cons (f : FilaEmpresa) (l : List FilaEmpresa) :
    DataFrame.ofDicts ((f :: l).map FilaEmpresa.toDict)
      = { columns := expectedColumns, rows := (f :: l).map filaRow } := by
  unfold DataFrame.ofDicts
  rw [dictCols_toDicts_cons]
  have hrows : ((f :: l).map FilaEmpresa.toDict).map (fun d => expectedColumns.map (dictCell d))
      = (f :: l).map filaRow := by
    rw [List.map_map]
    have hfun : (fun d => expectedColumns.map (dictCell d)) ∘ FilaEmpresa.toDict = filaRow := by
      funext g
      rfl
    rw [hfun]
  rw [hrows]

lemma processTarea_ok (env : Env) (t : ExtractionTask) (l : List FilaEmpresa)
    (h : env.invokeResult t.id = Except.ok { items := l }) :
    processTarea env t
      = { columns := if l.isEmpty then [] else expectedColumns, rows := l.map filaRow } := by
  simp only [processTarea, h]
  cases l with
  | nil => rfl
  | cons f rest => rw [ofDicts_toDicts_cons]; rfl

lemma processTarea_error (env : Env) (t : ExtractionTask) (e : String)
    (h : env.invokeResult t.id = Except.error e) :
    processTarea env t = fallbackDF := by
  unfold processTarea
  rw [h]

lemma output_eq (env : Env) (sheets : List Sheet)
    (h : (procesar_documento env).output = some sheets) :
    sheets = TAREAS_EXTRACCION.map (fun t => sheetOfDF t.id (processTarea env t)) := by
  cases hl : env.loadResult with
  | error e => simp [procesar_documento, hl] at h
  | ok pages =>
      cases hw : env.writeResult with
      | error e => simp [procesar_documento, hl, hw] at h
      | ok u =>
          simp [procesar_documento, hl, hw, List.map_map] at h
          exact h.symm

lemma events_eq (env : Env) (pages : List String) (hl : env.loadResult = Except.ok pages) :
    (procesar_documento env).events
      = (TAREAS_EXTRACCION.flatMap (fun t => [Event.invokeModel t.id, Event.sleep 1]))
        ++ [Event.writeAttempt] := by
  cases hw : env.writeResult with
  | error e => simp [procesar_documento, hl, hw]
  | ok u => simp [procesar_documento, hl, hw]

lemma raised_none (env : Env) : (procesar_documento env).raised = none := by
  cases hl : env.loadResult with
  | error e => simp [procesar_documento, hl]
  | ok pages =>
      cases hw : env.writeResult with
      | error e => simp [procesar_documento, hl, hw]
      | ok u => simp [procesar_documento, hl, hw]

lemma find_map_sheet (f : ExtractionTask → Sheet) (hf : ∀ u, (f u).name = u.id) :
    ∀ (ts : List ExtractionTask), (ts.map ExtractionTask.id).Nodup →
      ∀ t, t ∈ ts → (ts.map f).find? (fun s => s.name == t.id) = some (f t) := by
  intro ts
  induction ts with
  | nil => intro _ t ht; simp at ht
  | cons u rest ih =>
      intro hnd t ht
      rw [List.map_cons] at hnd
      have hnd2 := List.nodup_cons.mp hnd
      rw [List.map_cons]
      rcases List.mem_cons.mp ht with rfl | htr
      · have hpos : ((f t).name == t.id) = true := by rw [hf t]; exact beq_self_eq_true _
        simp only [List.find?, hpos]
      · have hne : u.id ≠ t.id := by
          intro he
          exact hnd2.1 (he ▸ List.mem_map_of_mem ExtractionTask.id htr)
        have hneg : ((f u).name == t.id) = false := by
          rw [hf u]
          exact beq_eq_false_iff_ne.mpr hne
        simp only [List.find?, hneg]
        exact ih hnd2.2 t htr

lemma ids_nodup : (TAREAS_EXTRACCION.map ExtractionTask.id).Nodup := by decide

lemma sheetFor_output (env : Env) (sheets : List Sheet) (t : ExtractionTask)
    (ht : t ∈ TAREAS_EXTRACCION) (h : (procesar_documento env).output = some sheets) :
    sheetFor sheets t.id = some (sheetOfDF t.id (processTarea env t)) := by
  rw [output_eq env sheets h]
  exact find_map_sheet _ (fun u => rfl) TAREAS_EXTRACCION ids_nodup t ht

lemma parseRequiredStr_isOk_iff (r : JsonRecord) (k : String) :
    (parseRequiredStr r k).isOk = true ↔ ∃ s, getField r k = some (JsonVal.str s) := by
  unfold parseRequiredStr
  cases hg : getField r k with
  | none => simp [Except.isOk, Except.toBool]
  | some v => cases v <;> simp [Except.isOk, Except.toBool]

lemma parseOptionalStr_isOk_iff (r : JsonRecord) (k : String) :
    (parseOptionalStr r k).isOk = true ↔
      (getField r k = none ∨ getField r k = some JsonVal.null ∨
        ∃ s, getField r k = some (JsonVal.str s)) := by
  unfold parseOptionalStr
  cases hg : getField r k with
  | none => simp [Except.isOk, Except.toBool]
  | some v => cases v <;> simp [Except.isOk, Except.toBool]

lemma validate_isOk_iff (r : JsonRecord) :
    (FilaEmpresa.validate r).isOk = true ↔
      (parseOptionalStr r "numero").isOk = true ∧
      (parseRequiredStr r "razon_social").isOk = true ∧
      (parseRequiredStr r "rut").isOk = true ∧
      (parseRequiredStr r "domicilio").isOk = true := by
  unfold FilaEmpresa.validate
  cases h1 : parseOptionalStr r "numero" <;>
    cases h2 : parseRequiredStr r "razon_social" <;>
      cases h3 : parseRequiredStr r "rut" <;>
        cases h4 : parseRequiredStr r "domicilio" <;>
          simp [Except.isOk, Except.toBool, Bind.bind, Except.bind, pure, Except.pure]

/-! ## Concrete witness environments -/

/-- The first registry entry, spelled out. -/
def tareaElectrico : ExtractionTask :=
  { id := "I_Sector_Electrico",
    descripcion := "I. Instituciones que proveen servicios de generación, transmisión o distribución eléctrica y el Coordinador Eléctrico Nacional" }

/-- Environment in which the PDF loads but every chain invocation fails. -/
def envAllFail : Env :=
  { loadResult := Except.ok ["texto del documento"],
    invokeResult := fun _ => Except.error "error HTTP 500",
    writeResult := Except.ok () }

/-- The workbook produced under envAllFail. -/
def sheetsAllFail : List Sheet := (procesar_documento envAllFail).output.getD []

/-- Environment in which the PDF load itself fails. -/
def envLoadFail : Env :=
  { loadResult := Except.error "archivo no encontrado",
    invokeResult := fun _ => Except.ok { items := [] },
    writeResult := Except.ok () }

/-- Environment in which the final Excel write fails. -/
def envWriteFail : Env :=
  { loadResult := Except.ok ["texto del documento"],
    invokeResult := fun _ => Except.error "error HTTP 500",
    writeResult := Except.error "disco lleno" }

/-- A sample extracted row. -/
def filaEjemplo : FilaEmpresa :=
  { numero := some "1", razon_social := "ENEL CHILE S.A.",
    rut := "76.536.353-5", domicilio := "Santa Rosa 76, Santiago" }

/-- Environment in which the first task succeeds with one record and every
other task fails. -/
def envOneSuccess : Env :=
  { loadResult := Except.ok ["texto del documento"],
    invokeResult := fun tid =>
      if tid == "I_Sector_Electrico" then Except.ok { items := [filaEjemplo] }
      else Except.error "fallo de red",
    writeResult := Except.ok () }

/-- The workbook produced under envOneSuccess. -/
def sheetsOneSuccess : List Sheet := (procesar_documento envOneSuccess).output.getD []

/-- Environment in which every chain invocation succeeds with zero records. -/
def envEmptySuccess : Env :=
  { loadResult := Except.ok ["texto del documento"],
    invokeResult := fun _ => Except.ok { items := [] },
    writeResult := Except.ok () }

/-- The workbook produced under envEmptySuccess. -/
def sheetsEmptySuccess : List Sheet := (procesar_documento envEmptySuccess).output.getD []

/-! ## Claims -/

/-- Claim C1: whenever procesar_documento produces an output workbook, its
sheet names are exactly the task ids of TAREAS_EXTRACCION in registry
order, and no name repeats, so each task has exactly one sheet. -/
theorem claim_C1_one_sheet_per_task_in_registry_order (env : Env) (sheets : List Sheet)
    (h : (procesar_documento env).output = some sheets) :
    sheets.map Sheet.name = TAREAS_EXTRACCION.map ExtractionTask.id ∧
    (sheets.map Sheet.name).Nodup := by
  have h1 : sheets.map Sheet.name = TAREAS_EXTRACCION.map ExtractionTask.id := by
    rw [output_eq env sheets h, List.map_map]
    rfl
  exact ⟨h1, by rw [h1]; exact ids_nodup⟩

theorem claim_C1_witness :
    sheetsAllFail.map Sheet.name = TAREAS_EXTRACCION.map ExtractionTask.id ∧
    (sheetsAllFail.map Sheet.name).Nodup :=
  claim_C1_one_sheet_per_task_in_registry_order envAllFail sheetsAllFail rfl

/-- Claim C2: when the chain invocation for a registry task parses into a
SeccionIndividual with records l, the sheet written for that task has
exactly the rows of l, each record mapped without loss or reordering into
the cells numero, razon_social, rut, domicilio, under those column
headers (whenever there is at least one record). -/
theorem claim_C2_success_rows_lossless (env : Env) (sheets : List Sheet)
    (t : ExtractionTask) (l : List FilaEmpresa) (ht : t ∈ TAREAS_EXTRACCION)
    (hi : env.invokeResult t.id = Except.ok { items := l })
    (h : (procesar_documento env).output = some sheets) :
    ∃ s, sheetFor sheets t.id = some s ∧
      s.dataRows = l.map filaRow ∧
      (l ≠ [] → s.headerCells = ["numero", "razon_social", "rut", "domicilio"]) := by
  refine ⟨sheetOfDF t.id (processTarea env t), sheetFor_output env sheets t ht h, ?_, ?_⟩
  · rw [processTarea_ok env t l hi]
    rfl
  · intro hne
    cases l with
    | nil => exact absurd rfl hne
    | cons f rest =>
        rw [processTarea_ok env t (f :: rest) hi]
        rfl

theorem claim_C2_witness :
    ∃ s, sheetFor sheetsOneSuccess tareaElectrico.id = some s ∧
      s.dataRows = [filaEjemplo].map filaRow ∧
      ([filaEjemplo] ≠ [] →
        s.headerCells = ["numero", "razon_social", "rut", "domicilio"]) :=
  claim_C2_success_rows_lossless envOneSuccess sheetsOneSuccess tareaElectrico [filaEjemplo]
    (by decide) rfl rfl

/-- Claim C3: when the chain invocation for a registry task fails in any
way, the sheet written for that task still exists, has zero data rows, and
carries the full four-column header set. -/
theorem claim_C3_failure_sheet_empty_with_headers (env : Env) (sheets : List Sheet)
    (t : ExtractionTask) (e : String) (ht : t ∈ TAREAS_EXTRACCION)
    (hi : env.invokeResult t.id = Except.error e)
    (h : (procesar_documento env).output = some sheets) :
    sheetFor sheets t.id
      = some { name := t.id,
               headerCells := ["numero", "razon_social", "rut", "domicilio"],
               dataRows := [] } := by
  rw [sheetFor_output env sheets t ht h, processTarea_error env t e hi]
  rfl

theorem claim_C3_witness :
    sheetFor sheetsAllFail tareaElectrico.id
      = some { name := tareaElectrico.id,
               headerCells := ["numero", "razon_social", "rut", "domicilio"],
               dataRows := [] } :=
  claim_C3_failure_sheet_empty_with_headers envAllFail sheetsAllFail tareaElectrico
    "error HTTP 500" (by decide) rfl rfl

/-- Claim C4: once the document loads, per-task failures are contained: the
run invokes the chain for every registry task, the final write is still
attempted (the trace ends with the write event), and no exception
propagates out of procesar_documento. -/
theorem claim_C4_per_task_failures_contained (env : Env) (pages : List String)
    (hl : env.loadResult = Except.ok pages) :
    (procesar_documento env).events.getLast? = some Event.writeAttempt ∧
    (∀ t ∈ TAREAS_EXTRACCION, Event.invokeModel t.id ∈ (procesar_documento env).events) ∧
    (procesar_documento env).raised = none := by
  have he := events_eq env pages hl
  refine ⟨?_, ?_, raised_none env⟩
  · rw [he]
    exact List.getLast?_concat _
  · intro t ht
    rw [he]
    exact List.mem_append.mpr (Or.inl (List.mem_flatMap.mpr ⟨t, ht, by simp⟩))

theorem claim_C4_witness :
    (procesar_documento envAllFail).events.getLast? = some Event.writeAttempt ∧
    (∀ t ∈ TAREAS_EXTRACCION,
      Event.invokeModel t.id ∈ (procesar_documento envAllFail).events) ∧
    (procesar_documento envAllFail).raised = none :=
  claim_C4_per_task_failures_contained envAllFail ["texto del documento"] rfl

/-- Claim C5 counterexample: with the write oracle failing, no exception
escapes procesar_documento (the failure is swallowed by the try/except of
source lines 144-152), refuting the claim that an IOWriteError propagates
out to the caller. -/
theorem claim_C5_counterexample :
    envWriteFail.writeResult = Except.error "disco lleno" ∧
    (procesar_documento envWriteFail).raised = none ∧
    (procesar_documento envWriteFail).output = none :=
  ⟨rfl, rfl, rfl⟩

/-- Claim C5 amended: if the output spreadsheet cannot be created or
written, procesar_documento catches the failure, produces no output file,
discards the in-memory results, and returns normally: no exception
propagates to the caller. -/
theorem claim_C5_amended_write_failure_swallowed (env : Env) (e : String)
    (hw : env.writeResult = Except.error e) :
    (procesar_documento env).raised = none ∧ (procesar_documento env).output = none := by
  refine ⟨raised_none env, ?_⟩
  cases hl : env.loadResult with
  | error e2 => simp [procesar_documento, hl]
  | ok pages => simp [procesar_documento, hl, hw]

theorem claim_C5_amended_witness :
    (procesar_documento envWriteFail).raised = none ∧
    (procesar_documento envWriteFail).output = none :=
  claim_C5_amended_write_failure_swallowed envWriteFail "disco lleno" rfl

/-- Claim C6: if loading the input PDF fails, the run aborts immediately:
the trace is empty (in particular no chain invocation for any task ever
happens) and no output file is produced. -/
theorem claim_C6_load_failure_aborts (env : Env) (e : String)
    (hl : env.loadResult = Except.error e) :
    (procesar_documento env).events = [] ∧
    (∀ tid, Event.invokeModel tid ∉ (procesar_documento env).events) ∧
    (procesar_documento env).output = none := by
  have he : (procesar_documento env).events = [] := by simp [procesar_documento, hl]
  refine ⟨he, ?_, ?_⟩
  · intro tid
    rw [he]
    exact List.not_mem_nil _
  · simp [procesar_documento, hl]

theorem claim_C6_witness :
    (procesar_documento envLoadFail).events = [] ∧
    (∀ tid, Event.invokeModel tid ∉ (procesar_documento envLoadFail).events) ∧
    (procesar_documento envLoadFail).output = none :=
  claim_C6_load_failure_aborts envLoadFail "archivo no encontrado" rfl

/-- Claim C7: a candidate record validates against the FilaEmpresa schema
exactly when razon_social, rut and domicilio are present with string
values and numero is absent, null, or a string; hence a record missing (or
mistyping) any of the three required fields fails validation, while a
record missing numero, or with numero null, still validates. -/
theorem claim_C7_required_fields_validation (r : JsonRecord) :
    (FilaEmpresa.validate r).isOk = true ↔
      ((∃ s, getField r "razon_social" = some (JsonVal.str s)) ∧
       (∃ s, getField r "rut" = some (JsonVal.str s)) ∧
       (∃ s, getField r "domicilio" = some (JsonVal.str s)) ∧
       (getField r "numero" = none ∨ getField r "numero" = some JsonVal.null ∨
        ∃ s, getField r "numero" = some (JsonVal.str s))) := by
  rw [validate_isOk_iff, parseOptionalStr_isOk_iff, parseRequiredStr_isOk_iff,
      parseRequiredStr_isOk_iff, parseRequiredStr_isOk_iff]
  tauto

/-- Claim C8 counterexample: an externally supplied GOOGLE_API_KEY is not
the credential the client sees; the configuration line overwrites it with
the in-source placeholder. -/
theorem claim_C8_counterexample :
    credentialUsedByClient [("GOOGLE_API_KEY", "clave-secreta-del-usuario")]
      = some "Poner GOOGLE_API_KEY" ∧
    ("Poner GOOGLE_API_KEY" : String) ≠ "clave-secreta-del-usuario" :=
  ⟨rfl, by decide⟩

/-- Claim C8 amended: whatever the externally supplied process environment,
the credential the language-model client reads from GOOGLE_API_KEY is the
constant written into the source at line 15, "Poner GOOGLE_API_KEY"; the
externally supplied value is never used. -/
theorem claim_C8_amended_hardcoded_credential (vars : EnvVars) :
    credentialUsedByClient vars = some "Poner GOOGLE_API_KEY" := rfl

/-- Claim C9: once the document loads, the trace of the run is exactly, for
each registry task in order, a chain invocation followed by a one-second
sleep — on the success and failure branches alike — followed by the final
write attempt. -/
theorem claim_C9_sleep_after_every_task (env : Env) (pages : List String)
    (hl : env.loadResult = Except.ok pages) :
    (procesar_documento env).events
      = (TAREAS_EXTRACCION.flatMap (fun t => [Event.invokeModel t.id, Event.sleep 1]))
        ++ [Event.writeAttempt] :=
  events_eq env pages hl

theorem claim_C9_witness :
    (procesar_documento envAllFail).events
      = (TAREAS_EXTRACCION.flatMap (fun t => [Event.invokeModel t.id, Event.sleep 1]))
        ++ [Event.writeAttempt] :=
  claim_C9_sleep_after_every_task envAllFail ["texto del documento"] rfl

/-- Claim C10: when the chain invocation for a registry task succeeds with
an empty items list, the DataFrame built from the empty list has no columns
at all, so the sheet written for that task has zero data rows and no header
cells — unlike the failure path, which writes the four headers. -/
theorem claim_C10_empty_success_headerless (env : Env) (sheets : List Sheet)
    (t : ExtractionTask) (ht : t ∈ TAREAS_EXTRACCION)
    (hi : env.invokeResult t.id = Except.ok { items := [] })
    (h : (procesar_documento env).output = some sheets) :
    sheetFor sheets t.id = some { name := t.id, headerCells := [], dataRows := [] } := by
  rw [sheetFor_output env sheets t ht h, processTarea_ok env t [] hi]
  rfl

theorem claim_C10_witness :
    sheetFor sheetsEmptySuccess tareaElectrico.id
      = some { name := tareaElectrico.id, headerCells := [], dataRows := [] } :=
  claim_C10_empty_success_headerless envEmptySuccess sheetsEmptySuccess tareaElectrico
    (by decide) rfl rfl

end ExtractorOIV
